import Mathlib

/-!
Verification of the InspectableR3F core (packages/inspectable-r3f/src/Inspectable.tsx).

The development shallowly embeds the texture-provenance tracking pipeline:

* the Canvas-2D instrumentation (transform tracker + ghost layer) installed on
  `CanvasRenderingContext2D.prototype` (`save`/`restore`/`translate`/`rotate`/
  `scale`/`transform`/`setTransform`/`clearRect`/`fillRect`/`strokeRect`/
  `drawImage` and `recordElement`/`ensureGhost`),
* the provenance registry (`containerRegistry`, a WeakMap) and the exported
  `html2canvas` wrapper,
* the mesh-source resolver (`associateMeshWithCanvas` plus the mesh-level
  userData fallback in `Inspectable.handleContextMenu`),
* the modal live-sync controller (`ModalContent`: the attach effect,
  `updateTexture` and `restoreElement`).

Numbers are idealised as rationals.  A `DOMMatrix` is modelled by its six
2x3 affine entries; `rotate` carries the cosine and sine of the (radian)
angle directly, since the degree round-trip in the source
(`rotateSelf(angle * 180 / PI)` where `rotateSelf` takes degrees) composes the
rotation matrix of the radian angle.  DOM object identity is modelled by ids.
-/

/-! ## DOMMatrix model -/

/-- A 2x3 affine matrix, the tracked part of a `DOMMatrix`:
the point map is `(x, y) => (a*x + c*y + e, b*x + d*y + f)`. -/
structure Mat where
  a : ℚ
  b : ℚ
  c : ℚ
  d : ℚ
  e : ℚ
  f : ℚ
deriving DecidableEq, Repr

/-- `new DOMMatrix()`: the identity transform. -/
def Mat.identity : Mat := ⟨1, 0, 0, 1, 0, 0⟩

/-- `DOMMatrix` multiplication `m * n` (column-vector convention: the product
applies `n` first, then `m`); all the `...Self` mutators of `DOMMatrix`
post-multiply by the new component, matching 2D canvas semantics. -/
def Mat.mul (m n : Mat) : Mat :=
  ⟨m.a * n.a + m.c * n.b, m.b * n.a + m.d * n.b,
   m.a * n.c + m.c * n.d, m.b * n.c + m.d * n.d,
   m.a * n.e + m.c * n.f + m.e, m.b * n.e + m.d * n.f + m.f⟩

/-- The translation matrix used by `translateSelf(x, y)`. -/
def Mat.translationM (x y : ℚ) : Mat := ⟨1, 0, 0, 1, x, y⟩

/-- The rotation matrix used by `rotateSelf`; `c` and `s` are the cosine and
sine of the rotation angle in radians. -/
def Mat.rotationM (c s : ℚ) : Mat := ⟨c, s, -s, c, 0, 0⟩

/-- The scaling matrix used by `scaleSelf(x, y)`. -/
def Mat.scalingM (x y : ℚ) : Mat := ⟨x, 0, 0, y, 0, 0⟩

/-- `projectPoint` (Inspectable.tsx line 42): `new DOMPoint(x, y).matrixTransform(matrix)`. -/
def projectPoint (m : Mat) (x y : ℚ) : ℚ × ℚ :=
  (m.a * x + m.c * y + m.e, m.b * x + m.d * y + m.f)

/-! ## Canvas-2D instrumentation state -/

/-- One entry of `canvas.__inspectable_stack`, pushed by the patched `save`. -/
structure Snapshot where
  matrix : Mat
  font : String
  textAlign : String
  textBaseline : String
deriving DecidableEq, Repr

/-- A ghost-layer child as configured by `recordElement` (Inspectable.tsx
lines 159-189): absolute position at the projected point, pointer-events
from `isInteractive`, z-index, opacity, and the linear part of the current
matrix as its CSS transform.  (Cosmetic style fields that no claim mentions
- `transformOrigin`, `draggable`, `userSelect` - are not modelled.) -/
structure GhostElem where
  ty : String
  left : ℚ
  top : ℚ
  interactive : Bool
  zIndex : Int
  opacity : String
  linA : ℚ
  linB : ℚ
  linC : ℚ
  linD : ℚ
  width : ℚ
  height : ℚ
deriving DecidableEq, Repr

/-- The per-canvas instrumentation state: the canvas dimensions plus the three
expando fields `__inspectable_ghost` (modelled as its list of children),
`__inspectable_matrix` and `__inspectable_stack`, each absent until
`ensureGhost` initialises them, plus the text-style state read by `save`. -/
structure CanvasState where
  width : ℚ
  height : ℚ
  ghost : Option (List GhostElem)
  matrix : Option Mat
  stack : Option (List Snapshot)
  font : String
  textAlign : String
  textBaseline : String
deriving DecidableEq, Repr

/-- A canvas no drawing call has touched: all three expandos absent. -/
def initCanvas (w h : ℚ) : CanvasState :=
  ⟨w, h, none, none, none, "", "", ""⟩

/-- `ensureGhost` (Inspectable.tsx lines 48-64): if the ghost container is
absent, create it empty and initialise the matrix to identity and the stack
to empty; otherwise leave everything alone. -/
def ensureGhostS (s : CanvasState) : CanvasState :=
  if s.ghost.isNone then
    { s with ghost := some [], matrix := some Mat.identity, stack := some [] }
  else s

/-- A tracked surface freshly initialised by its first drawing call. -/
def freshTracked (w h : ℚ) : CanvasState := ensureGhostS (initCanvas w h)

/-- `recordElement` (Inspectable.tsx lines 159-189): project `(x, y)` through
the current matrix, build the ghost element, and append it to the ghost
container. -/
def recordElement (s : CanvasState) (ty : String) (w h x y : ℚ)
    (isInteractive : Bool) (zIndex : Int) (opacity : String) : CanvasState :=
  let s1 := ensureGhostS s
  let m := s1.matrix.getD Mat.identity
  let p := projectPoint m x y
  let el : GhostElem :=
    ⟨ty, p.1, p.2, isInteractive, zIndex, opacity, m.a, m.b, m.c, m.d, w, h⟩
  { s1 with ghost := some ((s1.ghost.getD []) ++ [el]) }

/-- The destination rectangle of a `drawImage` call, by arity
(Inspectable.tsx lines 300-302): 3 arguments use the image's own size,
5 and 9 arguments carry explicit destination sizes. -/
inductive DrawImageCall
  | three (imgW imgH dx dy : ℚ)
  | five (dx dy dw dh : ℚ)
  | nine (sx sy sw sh dx dy dw dh : ℚ)
deriving DecidableEq, Repr

structure Rect4 where
  dx : ℚ
  dy : ℚ
  dw : ℚ
  dh : ℚ
deriving DecidableEq, Repr

def destRect : DrawImageCall → Rect4
  | .three iw ih dx dy => ⟨dx, dy, iw, ih⟩
  | .five dx dy dw dh => ⟨dx, dy, dw, dh⟩
  | .nine _ _ _ _ dx dy dw dh => ⟨dx, dy, dw, dh⟩

/-- The instrumented drawing operations the claims mention.  `rotate` carries
the cosine and sine of its radian angle; `setTransformM` models the
one-argument matrix-like overload, with `none` standing for a malformed
argument on which `DOMMatrix.fromMatrix` throws. -/
inductive CanvasOp
  | save
  | restore
  | translate (x y : ℚ)
  | rotate (c s : ℚ)
  | scale (x y : ℚ)
  | transform (a b c d e f : ℚ)
  | setTransform0
  | setTransformM (m : Option Mat)
  | setTransform6 (a b c d e f : ℚ)
  | clearRect (x y w h : ℚ)
  | fillRect (x y w h : ℚ)
  | strokeRect (x y w h : ℚ)
  | drawImage (call : DrawImageCall)
deriving DecidableEq, Repr

/-- One instrumented call on a canvas (Inspectable.tsx lines 73-351).  Every
patched method also delegates to the original operation, which does not touch
the instrumentation state and is therefore not part of the model. -/
def step (s : CanvasState) : CanvasOp → CanvasState
  | .save =>
      if s.matrix.isSome && s.stack.isSome then
        { s with
          stack := some (⟨s.matrix.getD Mat.identity, s.font, s.textAlign,
            s.textBaseline⟩ :: s.stack.getD []) }
      else s
  | .restore =>
      match s.stack with
      | some (st :: rest) => { s with matrix := some st.matrix, stack := some rest }
      | _ => s
  | .translate x y =>
      let s1 := ensureGhostS s
      { s1 with matrix := some ((s1.matrix.getD Mat.identity).mul (Mat.translationM x y)) }
  | .rotate c sn =>
      let s1 := ensureGhostS s
      { s1 with matrix := some ((s1.matrix.getD Mat.identity).mul (Mat.rotationM c sn)) }
  | .scale x y =>
      let s1 := ensureGhostS s
      { s1 with matrix := some ((s1.matrix.getD Mat.identity).mul (Mat.scalingM x y)) }
  | .transform a b c d e f =>
      let s1 := ensureGhostS s
      { s1 with matrix := some ((s1.matrix.getD Mat.identity).mul ⟨a, b, c, d, e, f⟩) }
  | .setTransform0 =>
      let s1 := ensureGhostS s
      { s1 with matrix := some Mat.identity }
  | .setTransformM m? =>
      let s1 := ensureGhostS s
      { s1 with matrix := some (m?.getD Mat.identity) }
  | .setTransform6 a b c d e f =>
      let s1 := ensureGhostS s
      { s1 with matrix := some ⟨a, b, c, d, e, f⟩ }
  | .clearRect x y w h =>
      let s1 := ensureGhostS s
      if x = 0 ∧ y = 0 ∧ w ≥ s.width ∧ h ≥ s.height then
        { s1 with ghost := some [] }
      else s1
  | .fillRect x y w h =>
      let s1 :=
        if x = 0 ∧ y = 0 ∧ w ≥ s.width ∧ h ≥ s.height then
          let s2 := ensureGhostS s
          { s2 with ghost := some [] }
        else s
      recordElement s1 "rect-fill" w h x y false 0 "0"
  | .strokeRect x y w h =>
      recordElement s "rect-stroke" w h x y false 0 "0"
  | .drawImage call =>
      let r := destRect call
      let canvasArea := s.width * s.height
      let imgArea := r.dw * r.dh
      let isOverlay : Bool := decide (imgArea > canvasArea * (85 / 100))
      recordElement s "image" r.dw r.dh r.dx r.dy (!isOverlay) 0 "1"

/-- A sequence of instrumented calls. -/
def run (s : CanvasState) (ops : List CanvasOp) : CanvasState :=
  ops.foldl step s

/-- The snapshot-stack depth of a surface. -/
def depth (s : CanvasState) : Nat := (s.stack.getD []).length

/-! ## C8: setTransform arities -/

/-- Claim C8: `setTransform` with zero arguments resets the tracked matrix to
identity; with a single matrix-like argument it adopts that argument's values,
falling back to identity (never throwing) on malformed input; with six numeric
arguments it builds the matrix directly from them. -/
theorem c8_set_transform_arities (s : CanvasState) (m : Mat) (a b c d e f : ℚ) :
    (step s .setTransform0).matrix = some Mat.identity ∧
    (step s (.setTransformM (some m))).matrix = some m ∧
    (step s (.setTransformM none)).matrix = some Mat.identity ∧
    (step s (.setTransform6 a b c d e f)).matrix = some ⟨a, b, c, d, e, f⟩ := by
  refine ⟨?_, ?_, ?_, ?_⟩ <;> simp [step, ensureGhostS]

/-! ## Transform composition (C4) -/

/-- The operations that the Transform Tracker mirrors into the matrix:
`translate`, `rotate`, `scale`, `transform` and the `setTransform` overloads. -/
def isTransformDirective : CanvasOp → Bool
  | .translate _ _ => true
  | .rotate _ _ => true
  | .scale _ _ => true
  | .transform _ _ _ _ _ _ => true
  | .setTransform0 => true
  | .setTransformM _ => true
  | .setTransform6 _ _ _ _ _ _ => true
  | _ => false

/-- Direct matrix composition of one drawing directive, computed on matrices
alone (the specification's independent reference computation): `translate`,
`rotate`, `scale` and `transform` right-multiply the corresponding 2x3 affine
matrix; `setTransform` replaces the matrix. -/
def opDirect (m : Mat) : CanvasOp → Mat
  | .translate x y => m.mul (Mat.translationM x y)
  | .rotate c s => m.mul (Mat.rotationM c s)
  | .scale x y => m.mul (Mat.scalingM x y)
  | .transform a b c d e f => m.mul ⟨a, b, c, d, e, f⟩
  | .setTransform0 => Mat.identity
  | .setTransformM m? => m?.getD Mat.identity
  | .setTransform6 a b c d e f => ⟨a, b, c, d, e, f⟩
  | _ => m

/-- Direct composition of a whole sequence of directives starting from the
identity matrix. -/
def directCompose (ops : List CanvasOp) : Mat :=
  ops.foldl opDirect Mat.identity

lemma ensureGhostS_of_isSome {s : CanvasState} (h : s.ghost.isSome) :
    ensureGhostS s = s := by
  simp [ensureGhostS, Option.isNone_iff_eq_none]
  intro hn
  rw [hn] at h
  simp at h

lemma step_transformDirective {s : CanvasState} {m : Mat} (op : CanvasOp)
    (hg : s.ghost.isSome) (hm : s.matrix = some m)
    (hop : isTransformDirective op = true) :
    step s op = { s with matrix := some (opDirect m op) } := by
  cases op <;> simp [isTransformDirective] at hop <;>
    simp [step, opDirect, ensureGhostS_of_isSome hg, hm]

lemma run_transformDirectives :
    ∀ (ops : List CanvasOp) (s : CanvasState) (m : Mat),
      (∀ op ∈ ops, isTransformDirective op = true) →
      s.ghost.isSome → s.matrix = some m →
      run s ops = { s with matrix := some (ops.foldl opDirect m) } := by
  intro ops
  induction ops with
  | nil =>
      intro s m _ _ hm
      simp [run]
      cases s
      simp_all
  | cons op rest ih =>
      intro s m hops hg hm
      have hstep := step_transformDirective op hg hm (hops op (by simp))
      have hr : run s (op :: rest) = run (step s op) rest := by simp [run]
      have hrest : ∀ o ∈ rest, isTransformDirective o = true :=
        fun o ho => hops o (by simp [ho])
      have hg' : (step s op).ghost.isSome := by rw [hstep]; simpa using hg
      have hm' : (step s op).matrix = some (opDirect m op) := by rw [hstep]
      rw [hr, ih (step s op) (opDirect m op) hrest hg' hm', hstep]
      simp [List.foldl]

/-- Claim C4: for every sequence of translate/rotate/scale/transform/
setTransform calls on a tracked surface, the left/top position of a
subsequently recorded ghost element equals the original point passed through
the direct composition of the corresponding 2x3 affine matrices, computed
independently on matrices alone (rotate composing the rotation matrix of its
radian angle, transform right-multiplying the given matrix). -/
theorem c4_transform_composition (W H x y w h : ℚ) (ops : List CanvasOp)
    (hops : ∀ op ∈ ops, isTransformDirective op = true) :
    ∃ el : GhostElem,
      (step (run (freshTracked W H) ops) (.strokeRect x y w h)).ghost = some [el] ∧
      el.left = (projectPoint (directCompose ops) x y).1 ∧
      el.top = (projectPoint (directCompose ops) x y).2 := by
  have hrun := run_transformDirectives ops (freshTracked W H) Mat.identity hops
      (by simp [freshTracked, ensureGhostS, initCanvas]) (by simp [freshTracked, ensureGhostS, initCanvas])
  rw [hrun]
  refine ⟨⟨"rect-stroke", (projectPoint (directCompose ops) x y).1,
      (projectPoint (directCompose ops) x y).2, false, 0, "0",
      (directCompose ops).a, (directCompose ops).b, (directCompose ops).c,
      (directCompose ops).d, w, h⟩, ?_, rfl, rfl⟩
  simp [step, recordElement, ensureGhostS, freshTracked, initCanvas, directCompose,
    projectPoint]

/-- Witness for C4 at a concrete input. -/
theorem c4_witness :
    ∃ el : GhostElem,
      (step (run (freshTracked 100 100)
          [CanvasOp.translate 3 4, CanvasOp.rotate 0 1, CanvasOp.scale 2 3])
        (.strokeRect 10 11 20 20)).ghost = some [el] ∧
      el.left = (projectPoint (directCompose
          [CanvasOp.translate 3 4, CanvasOp.rotate 0 1, CanvasOp.scale 2 3]) 10 11).1 ∧
      el.top = (projectPoint (directCompose
          [CanvasOp.translate 3 4, CanvasOp.rotate 0 1, CanvasOp.scale 2 3]) 10 11).2 :=
  c4_transform_composition 100 100 10 11 20 20 _ (by decide)

/-! ## Save/restore stack depth (C7, C10) -/

def countSaves (ops : List CanvasOp) : Nat :=
  ops.countP (fun op => decide (op = CanvasOp.save))

def countRestores (ops : List CanvasOp) : Nat :=
  ops.countP (fun op => decide (op = CanvasOp.restore))

/-- Decidable check that, starting from stack depth `k`, no restore in the
sequence is issued on an empty stack. -/
def prefixOk : Nat → List CanvasOp → Bool
  | _, [] => true
  | k, op :: rest =>
      match op with
      | .save => prefixOk (k + 1) rest
      | .restore => decide (0 < k) && prefixOk (k - 1) rest
      | _ => prefixOk k rest

lemma depth_run_prefixOk :
    ∀ (ops : List CanvasOp) (s : CanvasState),
      (∀ op ∈ ops, op = CanvasOp.save ∨ op = CanvasOp.restore) →
      s.matrix.isSome → s.stack.isSome → prefixOk (depth s) ops = true →
      depth (run s ops) + countRestores ops = depth s + countSaves ops := by
  intro ops
  induction ops with
  | nil => intro s _ _ _ _; simp [run, countSaves, countRestores]
  | cons op rest ih =>
      intro s hops hm hs hok
      obtain ⟨l, hl⟩ := Option.isSome_iff_exists.mp hs
      rcases hops op (by simp) with hop | hop
      · subst hop
        have hstep : step s CanvasOp.save =
            { s with stack := some (⟨s.matrix.getD Mat.identity, s.font,
                s.textAlign, s.textBaseline⟩ :: s.stack.getD []) } := by
          simp [step, hm, hs]
        have hd : depth (step s CanvasOp.save) = depth s + 1 := by
          rw [hstep]; simp [depth, hl]
        have hok' : prefixOk (depth (step s CanvasOp.save)) rest = true := by
          rw [hd]
          simpa [prefixOk] using hok
        have := ih (step s CanvasOp.save)
            (fun o ho => hops o (by simp [ho])) (by rw [hstep]; simpa using hm)
            (by rw [hstep]; simp) hok'
        have hrun : run s (CanvasOp.save :: rest) = run (step s CanvasOp.save) rest := by
          simp [run]
        rw [hrun]
        simp only [countSaves, countRestores, List.countP_cons] at *
        simp at *
        omega
      · subst hop
        have hpos : 0 < depth s ∧ prefixOk (depth s - 1) rest = true := by
          simpa [prefixOk] using hok
        have hlen : 0 < l.length := by
          have := hpos.1
          simpa [depth, hl] using this
        obtain ⟨st, tl, rfl⟩ : ∃ st tl, l = st :: tl := by
          cases l with
          | nil => simp at hlen
          | cons a b => exact ⟨a, b, rfl⟩
        have hstep : step s CanvasOp.restore =
            { s with matrix := some st.matrix, stack := some tl } := by
          simp [step, hl]
        have hd : depth (step s CanvasOp.restore) = depth s - 1 := by
          rw [hstep]; simp [depth, hl]
        have := ih (step s CanvasOp.restore)
            (fun o ho => hops o (by simp [ho])) (by rw [hstep]; simp)
            (by rw [hstep]; simp) (by rw [hd]; exact hpos.2)
        have hrun : run s (CanvasOp.restore :: rest) = run (step s CanvasOp.restore) rest := by
          simp [run]
        rw [hrun]
        have hds : 0 < depth s := hpos.1
        simp only [countSaves, countRestores, List.countP_cons] at *
        simp at *
        omega

/-- Claim C7 (amended): for every save/restore sequence on a tracked surface
in which no restore is issued on an empty stack (every prefix has at least as
many saves as restores), the stack depth afterwards equals N - M; and a
restore issued on an empty stack leaves the whole tracked state, including
the current matrix, unchanged (and throws nothing, the step being total). -/
theorem c7_amended_stack_depth :
    (∀ (s : CanvasState) (ops : List CanvasOp),
        s.matrix.isSome → s.stack = some [] →
        (∀ op ∈ ops, op = CanvasOp.save ∨ op = CanvasOp.restore) →
        prefixOk 0 ops = true →
        depth (run s ops) = countSaves ops - countRestores ops) ∧
    (∀ s : CanvasState, s.stack = some [] → step s CanvasOp.restore = s) := by
  constructor
  · intro s ops hm hs hops hok
    have hd : depth s = 0 := by simp [depth, hs]
    have := depth_run_prefixOk ops s hops hm (by simp [hs]) (by rw [hd]; exact hok)
    omega
  · intro s hs
    simp [step, hs]

/-- Counterexample to C7 as stated: the sequence restore-then-save has N = 1
saves and M = 1 restores, yet on a freshly tracked surface the final stack
depth is 1, not N - M = 0 (the leading restore is a no-op on the empty
stack, so it does not cancel the later save). -/
theorem c7_counterexample :
    countSaves [CanvasOp.restore, CanvasOp.save] = 1 ∧
    countRestores [CanvasOp.restore, CanvasOp.save] = 1 ∧
    depth (run (freshTracked 10 10) [CanvasOp.restore, CanvasOp.save]) ≠ 1 - 1 := by
  refine ⟨by decide, by decide, ?_⟩
  decide

/-- Witness for the amended C7 at a concrete input. -/
theorem c7_amended_witness :
    depth (run (freshTracked 10 10)
      [CanvasOp.save, CanvasOp.save, CanvasOp.restore]) = 2 - 1 ∧
    step (freshTracked 20 20) CanvasOp.restore = freshTracked 20 20 :=
  ⟨c7_amended_stack_depth.1 (freshTracked 10 10) _ (by decide) (by decide)
      (by decide) (by decide),
   c7_amended_stack_depth.2 (freshTracked 20 20) (by decide)⟩

/-! ## Untracked surfaces (C10) -/

/-- The patched operations that call `ensureGhost` and hence initialise the
tracking state on first contact (every patched call except save/restore). -/
def usesEnsureGhost : CanvasOp → Bool
  | .save => false
  | .restore => false
  | _ => true

lemma step_untracked_saveRestore {s : CanvasState} (op : CanvasOp)
    (hmat : s.matrix = none) (hstk : s.stack = none)
    (hop : op = CanvasOp.save ∨ op = CanvasOp.restore) :
    step s op = s := by
  rcases hop with rfl | rfl
  · simp [step, hmat]
  · simp [step, hstk]

lemma step_init_tracked {s : CanvasState} (op : CanvasOp)
    (hg : s.ghost = none) (hop : usesEnsureGhost op = true) :
    (step s op).matrix.isSome = true ∧ (step s op).stack = some [] := by
  cases op <;> simp [usesEnsureGhost] at hop <;>
    simp [step, ensureGhostS, recordElement, hg] <;>
    split <;> simp [ensureGhostS, recordElement, hg]

/-- Claim C10: on a surface whose tracking state has never been initialised,
save pushes nothing and restore pops nothing (the instrumentation state is
unchanged, both purely delegating); the matrix and stack come into existence
at the first ensureGhost-calling drawing operation; and the N - M depth
property holds for save/restore sequences issued after that point. -/
theorem c10_untracked_delegation :
    (∀ (s : CanvasState) (ops : List CanvasOp),
        s.matrix = none → s.stack = none →
        (∀ op ∈ ops, op = CanvasOp.save ∨ op = CanvasOp.restore) →
        run s ops = s) ∧
    (∀ (s : CanvasState) (op : CanvasOp),
        s.ghost = none → usesEnsureGhost op = true →
        (step s op).matrix.isSome = true ∧ (step s op).stack = some []) ∧
    (∀ (s : CanvasState) (op : CanvasOp) (ops : List CanvasOp),
        s.ghost = none → usesEnsureGhost op = true →
        (∀ o ∈ ops, o = CanvasOp.save ∨ o = CanvasOp.restore) →
        prefixOk 0 ops = true →
        depth (run (step s op) ops) = countSaves ops - countRestores ops) := by
  refine ⟨?_, ?_, ?_⟩
  · intro s ops
    induction ops generalizing s with
    | nil => intro _ _ _; simp [run]
    | cons op rest ih =>
        intro hmat hstk hops
        have h1 := step_untracked_saveRestore op hmat hstk (hops op (by simp))
        have : run s (op :: rest) = run (step s op) rest := by simp [run]
        rw [this, h1]
        exact ih s hmat hstk (fun o ho => hops o (by simp [ho]))
  · intro s op hg hop
    exact step_init_tracked op hg hop
  · intro s op ops hg hop hops hok
    obtain ⟨hm, hs⟩ := step_init_tracked op hg hop
    have hd : depth (step s op) = 0 := by simp [depth, hs]
    have := depth_run_prefixOk ops (step s op) hops hm (by simp [hs])
      (by rw [hd]; exact hok)
    omega

/-- Witness for C10 at concrete inputs. -/
theorem c10_witness :
    run (initCanvas 5 5) [CanvasOp.save, CanvasOp.restore] = initCanvas 5 5 ∧
    ((step (initCanvas 5 5) (CanvasOp.translate 1 2)).matrix.isSome = true ∧
      (step (initCanvas 5 5) (CanvasOp.translate 1 2)).stack = some []) ∧
    depth (run (step (initCanvas 5 5) (CanvasOp.translate 1 2))
      [CanvasOp.save, CanvasOp.restore]) = 1 - 1 :=
  ⟨c10_untracked_delegation.1 (initCanvas 5 5) _ rfl rfl (by decide),
   c10_untracked_delegation.2.1 (initCanvas 5 5) _ rfl (by decide),
   c10_untracked_delegation.2.2 (initCanvas 5 5) _ _ rfl (by decide) (by decide)
     (by decide)⟩

/-! ## drawImage interactivity (C5) -/

/-- Counterexample to C5 as stated: on a 100x100 surface, a drawImage whose
destination rectangle is 100x85 covers exactly 85 percent of the surface area
(so "at least 85 percent" holds), yet the recorded ghost placeholder is
interactive, because the code tests `imgArea > canvasArea * 0.85` strictly. -/
theorem c5_counterexample :
    (destRect (.five 0 0 100 85)).dw * (destRect (.five 0 0 100 85)).dh ≥
      (freshTracked 100 100).width * (freshTracked 100 100).height * (85 / 100) ∧
    (((step (freshTracked 100 100) (.drawImage (.five 0 0 100 85))).ghost.getD
        []).getLast?).map (fun el => el.interactive) = some true := by
  constructor
  · norm_num [destRect, freshTracked, ensureGhostS, initCanvas]
  · have hnot : ¬((destRect (.five 0 0 100 85)).dw * (destRect (.five 0 0 100 85)).dh >
        (freshTracked 100 100).width * (freshTracked 100 100).height * (85 / 100)) := by
      norm_num [destRect, freshTracked, ensureGhostS, initCanvas]
    simp [step, recordElement, hnot]

/-- Claim C5 (amended): for every drawImage call on a tracked surface (any of
the three signatures), if the destination rectangle's area covers strictly
more than 85 percent of the destination surface's area the recorded ghost
placeholder is non-interactive; at exactly 85 percent or below it is
interactive. -/
theorem c5_amended_drawimage_interactivity (s : CanvasState) (call : DrawImageCall) :
    ∃ (l : List GhostElem) (el : GhostElem),
      (step s (.drawImage call)).ghost = some (l ++ [el]) ∧
      ((destRect call).dw * (destRect call).dh >
          s.width * s.height * (85 / 100) → el.interactive = false) ∧
      ((destRect call).dw * (destRect call).dh ≤
          s.width * s.height * (85 / 100) → el.interactive = true) := by
  refine ⟨(ensureGhostS s).ghost.getD [],
    ⟨"image",
      (projectPoint ((ensureGhostS s).matrix.getD Mat.identity)
        (destRect call).dx (destRect call).dy).1,
      (projectPoint ((ensureGhostS s).matrix.getD Mat.identity)
        (destRect call).dx (destRect call).dy).2,
      !(decide ((destRect call).dw * (destRect call).dh >
        s.width * s.height * (85 / 100))),
      0, "1",
      ((ensureGhostS s).matrix.getD Mat.identity).a,
      ((ensureGhostS s).matrix.getD Mat.identity).b,
      ((ensureGhostS s).matrix.getD Mat.identity).c,
      ((ensureGhostS s).matrix.getD Mat.identity).d,
      (destRect call).dw, (destRect call).dh⟩, ?_, ?_, ?_⟩
  · simp [step, recordElement]
  · intro hgt
    simp [hgt]
  · intro hle
    simp [not_lt.mpr hle]

/-- Witness for the amended C5 at a concrete input: a 30x30 draw on a 100x100
surface (9 percent coverage) records an interactive placeholder. -/
theorem c5_amended_witness :
    ∃ (l : List GhostElem) (el : GhostElem),
      (step (freshTracked 100 100) (.drawImage (.five 0 0 30 30))).ghost =
        some (l ++ [el]) ∧ el.interactive = true := by
  obtain ⟨l, el, hg, _, hle⟩ :=
    c5_amended_drawimage_interactivity (freshTracked 100 100) (.five 0 0 30 30)
  exact ⟨l, el, hg, hle (by norm_num [destRect, freshTracked, ensureGhostS, initCanvas])⟩

/-! ## Full-surface clears (C6) -/

/-- The geometric condition that a rectangle covers the whole surface. -/
def coversSurface (s : CanvasState) (x y w h : ℚ) : Prop :=
  x ≤ 0 ∧ y ≤ 0 ∧ x + w ≥ s.width ∧ y + h ≥ s.height

/-- Claim C6: on a surface with previously recorded ghost elements, a
`fillRect(0,0,w,h)` or `clearRect(0,0,w,h)` with `w`, `h` at least the full
surface size removes all previously recorded ghost elements (fillRect then
adding its own placeholder), while a fillRect not covering the full surface
bounds removes none of them. -/
theorem c6_full_clear_flush (s : CanvasState) (g : List GhostElem)
    (hg : s.ghost = some g) :
    (∀ w h : ℚ, w ≥ s.width → h ≥ s.height →
      ∃ el : GhostElem, (step s (.fillRect 0 0 w h)).ghost = some [el] ∧
        el.ty = "rect-fill") ∧
    (∀ w h : ℚ, w ≥ s.width → h ≥ s.height →
      (step s (.clearRect 0 0 w h)).ghost = some []) ∧
    (∀ x y w h : ℚ, ¬ coversSurface s x y w h →
      ∃ el : GhostElem, (step s (.fillRect x y w h)).ghost = some (g ++ [el])) := by
  have hgs : s.ghost.isSome := by simp [hg]
  refine ⟨?_, ?_, ?_⟩
  · intro w h hw hh
    refine ⟨⟨"rect-fill", (projectPoint (s.matrix.getD Mat.identity) 0 0).1,
      (projectPoint (s.matrix.getD Mat.identity) 0 0).2, false, 0, "0",
      (s.matrix.getD Mat.identity).a, (s.matrix.getD Mat.identity).b,
      (s.matrix.getD Mat.identity).c, (s.matrix.getD Mat.identity).d, w, h⟩,
      ?_, rfl⟩
    simp [step, hw, hh, recordElement, ensureGhostS, hg]
  · intro w h hw hh
    simp [step, hw, hh, ensureGhostS_of_isSome hgs]
  · intro x y w h hcov
    have hcond : ¬(x = 0 ∧ y = 0 ∧ w ≥ s.width ∧ h ≥ s.height) := by
      intro ⟨hx, hy, hw, hh⟩
      exact hcov ⟨le_of_eq hx, le_of_eq hy, by rw [hx]; simpa using hw,
        by rw [hy]; simpa using hh⟩
    refine ⟨⟨"rect-fill", (projectPoint (s.matrix.getD Mat.identity) x y).1,
      (projectPoint (s.matrix.getD Mat.identity) x y).2, false, 0, "0",
      (s.matrix.getD Mat.identity).a, (s.matrix.getD Mat.identity).b,
      (s.matrix.getD Mat.identity).c, (s.matrix.getD Mat.identity).d, w, h⟩, ?_⟩
    simp [step, hcond, recordElement, ensureGhostS_of_isSome hgs, hg]

/-- Witness for C6 at a concrete input: a surface holding two prior ghost
elements, fully cleared by fillRect and clearRect, and untouched by a partial
fillRect. -/
theorem c6_witness :
    (∃ el : GhostElem,
      (step (⟨100, 100, some [⟨"text", 0, 0, true, 1, "1", 1, 0, 0, 1, 5, 5⟩,
          ⟨"image", 2, 3, false, 0, "1", 1, 0, 0, 1, 7, 7⟩], some Mat.identity,
          some [], "", "", ""⟩ : CanvasState) (.fillRect 0 0 200 200)).ghost =
        some [el] ∧ el.ty = "rect-fill") ∧
    (step (⟨100, 100, some [⟨"text", 0, 0, true, 1, "1", 1, 0, 0, 1, 5, 5⟩,
        ⟨"image", 2, 3, false, 0, "1", 1, 0, 0, 1, 7, 7⟩], some Mat.identity,
        some [], "", "", ""⟩ : CanvasState) (.clearRect 0 0 200 200)).ghost =
      some [] ∧
    (∃ el : GhostElem,
      (step (⟨100, 100, some [⟨"text", 0, 0, true, 1, "1", 1, 0, 0, 1, 5, 5⟩,
          ⟨"image", 2, 3, false, 0, "1", 1, 0, 0, 1, 7, 7⟩], some Mat.identity,
          some [], "", "", ""⟩ : CanvasState) (.fillRect 1 1 5 5)).ghost =
        some ([⟨"text", 0, 0, true, 1, "1", 1, 0, 0, 1, 5, 5⟩,
          ⟨"image", 2, 3, false, 0, "1", 1, 0, 0, 1, 7, 7⟩] ++ [el])) := by
  obtain ⟨h1, h2, h3⟩ :=
    c6_full_clear_flush (⟨100, 100, some [⟨"text", 0, 0, true, 1, "1", 1, 0, 0, 1, 5, 5⟩,
        ⟨"image", 2, 3, false, 0, "1", 1, 0, 0, 1, 7, 7⟩], some Mat.identity,
        some [], "", "", ""⟩ : CanvasState)
      [⟨"text", 0, 0, true, 1, "1", 1, 0, 0, 1, 5, 5⟩,
        ⟨"image", 2, 3, false, 0, "1", 1, 0, 0, 1, 7, 7⟩] rfl
  exact ⟨h1 200 200 (by norm_num) (by norm_num), h2 200 200 (by norm_num) (by norm_num),
    h3 1 1 5 5 (by intro hc; exact absurd hc.1 (by norm_num))⟩

/-! ## DOM elements, capture info and the provenance registry (C9) -/

/-- A DOM element reference; identity is the `id` field.  `offsetWidth` and
`offsetHeight` model the layout size; `rawWidth`/`rawHeight` model the value
of the chain `(el as any).width || (el as any).videoWidth || 0` used on the
raw-source path; `isConnected` models `Node.isConnected`. -/
structure Elem where
  id : Nat
  offsetWidth : ℚ
  offsetHeight : ℚ
  rawWidth : ℚ
  rawHeight : ℚ
  isConnected : Bool
deriving DecidableEq, Repr

/-- The inspectable source an inspection session points at: a plain DOM
element, an HTML canvas element used directly, or a canvas's ghost container. -/
inductive SrcElem
  | domElem (e : Elem)
  | canvasElem (cid : Nat)
  | ghostOf (cid : Nat)
deriving DecidableEq, Repr

/-- `CaptureInfo` (Inspectable.tsx lines 10-21).  The `mesh` back-reference is
modelled by whether it has been stamped; bitmap-valued fields (`backdrop`,
`textureSourceCanvas`, `ghostContainer`) are modelled by ids. -/
structure CaptureInfo where
  element : SrcElem
  width : ℚ
  height : ℚ
  scale : ℚ
  meshStamped : Bool
  isRawSource : Bool
  wasConnected : Option Bool
  textureSourceCanvas : Option Nat
  ghostContainer : Option Nat
  backdrop : Option Nat
deriving DecidableEq, Repr

/-- `containerRegistry.set` (a `WeakMap` keyed by canvas identity): record or
overwrite the entry for the key. -/
def regSet : List (Nat × CaptureInfo) → Nat → CaptureInfo → List (Nat × CaptureInfo)
  | [], k, v => [(k, v)]
  | p :: t, k, v => if p.1 = k then (k, v) :: t else p :: regSet t k v

/-- `containerRegistry.get`. -/
def regGet : List (Nat × CaptureInfo) → Nat → Option CaptureInfo
  | [], _ => none
  | p :: t, k => if p.1 = k then some p.2 else regGet t k

/-- `containerRegistry.has`. -/
def regHas (r : List (Nat × CaptureInfo)) (k : Nat) : Bool :=
  (regGet r k).isSome

lemma regGet_regSet_self (r : List (Nat × CaptureInfo)) (k : Nat) (v : CaptureInfo) :
    regGet (regSet r k v) k = some v := by
  induction r with
  | nil => simp [regSet, regGet]
  | cons p t ih =>
      by_cases hpk : p.1 = k
      · simp [regSet, regGet, hpk]
      · simp [regSet, regGet, hpk, ih]

lemma regSet_regSet_length (r : List (Nat × CaptureInfo)) (k : Nat)
    (v1 v2 : CaptureInfo) :
    (regSet (regSet r k v1) k v2).length = (regSet r k v1).length := by
  induction r with
  | nil => simp [regSet]
  | cons p t ih =>
      by_cases hpk : p.1 = k
      · simp [regSet, hpk]
      · simp [regSet, hpk, ih]

/-- JavaScript `a || b` on a possibly-missing number: `0` and absence are
falsy and select the fallback. -/
def jsOrOpt (o : Option ℚ) (d : ℚ) : ℚ :=
  match o with
  | some v => if v = 0 then d else v
  | none => d

/-- JavaScript `a || b` on a number. -/
def jsOr (v d : ℚ) : ℚ := if v = 0 then d else v

/-- The options bag accepted by the `html2canvas` wrapper. -/
structure CaptureOptions where
  width : Option ℚ
  height : Option ℚ
  scale : Option ℚ
deriving DecidableEq, Repr

/-- The provenance entry recorded by the exported `html2canvas` wrapper
(Inspectable.tsx lines 361-366): the source element and
`options?.width || element.offsetWidth`, `options?.height ||
element.offsetHeight`, `options?.scale || 1`. -/
def html2canvasEntry (element : Elem) (options : CaptureOptions) : CaptureInfo :=
  ⟨SrcElem.domElem element, jsOrOpt options.width element.offsetWidth,
    jsOrOpt options.height element.offsetHeight, jsOrOpt options.scale 1,
    false, false, none, none, none, none⟩

/-- The exported `html2canvas` wrapper (Inspectable.tsx lines 355-369): run
the real capture (producing the bitmap named `canvasId`) and register the
result in the provenance registry. -/
def html2canvas (r : List (Nat × CaptureInfo)) (canvasId : Nat) (element : Elem)
    (options : CaptureOptions) : List (Nat × CaptureInfo) :=
  regSet r canvasId (html2canvasEntry element options)

/-- Claim C9: registering a bitmap through the instrumented capture wrapper
and then looking it up by the bitmap's identity returns the exact same source
element and the same recorded capture parameters (width, height, scale);
re-registering the same bitmap overwrites the existing entry rather than
creating a duplicate (lookup returns the new value and the registry does not
grow). -/
theorem c9_registry_roundtrip (r : List (Nat × CaptureInfo)) (cid : Nat)
    (el : Elem) (opts : CaptureOptions) (info2 : CaptureInfo) :
    regGet (html2canvas r cid el opts) cid = some (html2canvasEntry el opts) ∧
    (html2canvasEntry el opts).element = SrcElem.domElem el ∧
    (html2canvasEntry el opts).width = jsOrOpt opts.width el.offsetWidth ∧
    (html2canvasEntry el opts).height = jsOrOpt opts.height el.offsetHeight ∧
    (html2canvasEntry el opts).scale = jsOrOpt opts.scale 1 ∧
    regGet (regSet (html2canvas r cid el opts) cid info2) cid = some info2 ∧
    (regSet (html2canvas r cid el opts) cid info2).length =
      (html2canvas r cid el opts).length :=
  ⟨regGet_regSet_self r cid _, rfl, rfl, rfl, rfl,
   regGet_regSet_self _ cid info2, regSet_regSet_length r cid _ info2⟩

/-! ## Mesh-source resolver (C1) -/

/-- The value of `material.map.source.data` when present: an HTML canvas
element (identified by id), some other DOM-displayable element (video or
image), or a non-element bitmap source. -/
inductive TexData
  | canvasData (cid : Nat)
  | elementData (e : Elem)
  | otherData
deriving DecidableEq, Repr

/-- A material slot: its `userData.inspectableContainer` manual override and
its `map.source.data` when a texture with a backing source is bound. -/
structure Material where
  inspectableContainer : Option Elem
  map : Option TexData
deriving DecidableEq, Repr

/-- A mesh: its material slots and its own `userData.inspectableContainer`. -/
structure MeshT where
  materials : List Material
  inspectableContainer : Option Elem
deriving DecidableEq, Repr

/-- The ambient state the resolver consults: the provenance registry, the set
of canvases carrying a `__inspectable_ghost`, and per-canvas dimensions and
connectedness. -/
structure World where
  registry : List (Nat × CaptureInfo)
  ghosts : List Nat
  canvasWidth : Nat → ℚ
  canvasHeight : Nat → ℚ
  canvasConnected : Nat → Bool

/-- Narrowing to the hit material slot (Inspectable.tsx lines 373-380): when
`event.face.materialIndex` is defined and `materials[index]` is truthy, search
only that slot; otherwise search all slots in order. -/
def searchMaterials (mesh : MeshT) (faceMaterialIndex : Option Nat) : List Material :=
  match faceMaterialIndex with
  | some i =>
      match mesh.materials[i]? with
      | some mat => [mat]
      | none => mesh.materials
  | none => mesh.materials

/-- Pass 1 of `associateMeshWithCanvas` (lines 383-419) on one material:
manual override via the material's userData first (with `|| 512`, `|| 683`
size fallbacks and scale 2), then registry lookup for a canvas-backed texture
(stamping the mesh into the returned record), then ghost-layer lookup (raw
canvas dimensions, scale 1, no mesh stamped). -/
def pass1 (w : World) (mat : Material) : Option CaptureInfo :=
  match mat.inspectableContainer with
  | some el =>
      some ⟨SrcElem.domElem el, jsOr el.offsetWidth 512, jsOr el.offsetHeight 683,
        2, true, false, none, none, none, none⟩
  | none =>
      match mat.map with
      | some (TexData.canvasData cid) =>
          match regGet w.registry cid with
          | some info => some { info with meshStamped := true }
          | none =>
              if cid ∈ w.ghosts then
                some ⟨SrcElem.ghostOf cid, w.canvasWidth cid, w.canvasHeight cid,
                  1, false, false, none, some cid, some cid, none⟩
              else none
      | _ => none

/-- Pass 2 of `associateMeshWithCanvas` (lines 422-438) on one material: any
texture whose backing source is an HTMLElement (a canvas not tracked at all,
or a video/image element) becomes a raw, uncaptured source, recording whether
it was connected to the document. -/
def pass2 (w : World) (mat : Material) : Option CaptureInfo :=
  match mat.map with
  | some (TexData.canvasData cid) =>
      some ⟨SrcElem.canvasElem cid, jsOr (w.canvasWidth cid) 0,
        jsOr (w.canvasHeight cid) 0, 1, true, true,
        some (w.canvasConnected cid), none, none, none⟩
  | some (TexData.elementData el) =>
      some ⟨SrcElem.domElem el, el.rawWidth, el.rawHeight, 1, true, true,
        some el.isConnected, none, none, none⟩
  | _ => none

/-- `associateMeshWithCanvas` (Inspectable.tsx lines 372-441). -/
def associateMeshWithCanvas (w : World) (mesh : MeshT)
    (faceMaterialIndex : Option Nat) : Option CaptureInfo :=
  let mats := searchMaterials mesh faceMaterialIndex
  match mats.findSome? (pass1 w) with
  | some info => some info
  | none => mats.findSome? (pass2 w)

/-- The full resolution performed by `Inspectable.handleContextMenu`
(Inspectable.tsx lines 824-842): `associateMeshWithCanvas` first, then the
mesh-level `userData.inspectableContainer` fallback (with `|| 200` size
fallbacks and scale 2), finally stamping the mesh into the result. -/
def handleContextMenuResolve (w : World) (mesh : MeshT)
    (faceMaterialIndex : Option Nat) : Option CaptureInfo :=
  match associateMeshWithCanvas w mesh faceMaterialIndex with
  | some info => some { info with meshStamped := true }
  | none =>
      match mesh.inspectableContainer with
      | some el =>
          some ⟨SrcElem.domElem el, jsOr el.offsetWidth 200, jsOr el.offsetHeight 200,
            2, true, false, none, none, none, none⟩
      | none => none

def c1OverrideElem : Elem := ⟨1, 50, 60, 0, 0, true⟩

def c1RegisteredElem : Elem := ⟨2, 70, 80, 0, 0, true⟩

def c1World : World :=
  ⟨[(0, html2canvasEntry c1RegisteredElem ⟨none, none, none⟩)], [],
    fun _ => 100, fun _ => 100, fun _ => false⟩

def c1Mesh : MeshT := ⟨[⟨none, some (TexData.canvasData 0)⟩], some c1OverrideElem⟩

/-- Counterexample to C1 as stated: a mesh carrying a manual override in its
own userData, whose single material has a registry entry for its bound
texture, resolves to the registry's source element, not to the override:
the mesh-level override is only a fallback after automatic resolution. -/
theorem c1_counterexample :
    c1Mesh.inspectableContainer = some c1OverrideElem ∧
    regHas c1World.registry 0 = true ∧
    (handleContextMenuResolve c1World c1Mesh none).map (fun info => info.element) =
      some (SrcElem.domElem c1RegisteredElem) ∧
    SrcElem.domElem c1RegisteredElem ≠ SrcElem.domElem c1OverrideElem := by
  refine ⟨rfl, rfl, rfl, ?_⟩
  simp [c1RegisteredElem, c1OverrideElem]

/-- Claim C1 (amended): a manual override on the hit material slot's userData
has strict priority over registry lookup, ghost-layer lookup and the
raw-source fallback; a mesh-level userData override is consulted only as a
fallback when automatic resolution returns nothing. -/
theorem c1_amended_override_priority :
    (∀ (w : World) (mesh : MeshT) (i : Nat) (mat : Material) (el : Elem),
        mesh.materials[i]? = some mat →
        mat.inspectableContainer = some el →
        (handleContextMenuResolve w mesh (some i)).map (fun info => info.element) =
          some (SrcElem.domElem el)) ∧
    (∀ (w : World) (mesh : MeshT) (el : Elem),
        associateMeshWithCanvas w mesh none = none →
        mesh.inspectableContainer = some el →
        (handleContextMenuResolve w mesh none).map (fun info => info.element) =
          some (SrcElem.domElem el)) := by
  constructor
  · intro w mesh i mat el hi hel
    simp [handleContextMenuResolve, associateMeshWithCanvas, searchMaterials, hi,
      List.findSome?, pass1, hel]
  · intro w mesh el hassoc hel
    simp [handleContextMenuResolve, hassoc, hel]

/-- Witness for the amended C1 at concrete inputs: a hit slot whose material
carries an override, on a world where the same texture is also registered;
and a mesh with no resolvable material but a mesh-level override. -/
theorem c1_amended_witness :
    (handleContextMenuResolve c1World
        ⟨[⟨some c1OverrideElem, some (TexData.canvasData 0)⟩], none⟩ (some 0)).map
      (fun info => info.element) = some (SrcElem.domElem c1OverrideElem) ∧
    (handleContextMenuResolve c1World ⟨[], some c1OverrideElem⟩ none).map
      (fun info => info.element) = some (SrcElem.domElem c1OverrideElem) :=
  ⟨c1_amended_override_priority.1 c1World _ 0 _ c1OverrideElem rfl rfl,
   c1_amended_override_priority.2 c1World _ c1OverrideElem rfl rfl⟩

/-! ## Session attach and restore (C2) -/

/-- Where a container element currently lives. -/
inductive DomParent
  | modalSurface
  | body
  | other (id : Nat)
  | detached
deriving DecidableEq, Repr

/-- The observable DOM state of the session's container element: its parent
and its inline `position`/`left` style values. -/
structure ContainerState where
  parent : DomParent
  position : String
  left : String
deriving DecidableEq, Repr

/-- JavaScript `a || b` on a string: the empty string is falsy. -/
def jsOrS (v d : String) : String := if v = "" then d else v

/-- An open inspection session: the resolved capture info, the inline
position/left saved into `originalStyleRef` at attach time, and the
container's current state. -/
structure Session where
  info : CaptureInfo
  origPosition : String
  origLeft : String
  container : ContainerState
deriving DecidableEq, Repr

/-- The attach phase of the `ModalContent` effect (Inspectable.tsx lines
624-655): save the container's inline position/left into `originalStyleRef`,
then set `position: relative`, `left: 0` and append the container to the
modal's content surface. -/
def attachSession (info : CaptureInfo) (c : ContainerState) : Session :=
  ⟨info, c.position, c.left, ⟨DomParent.modalSurface, "relative", "0"⟩⟩

/-- `restoreElement` (Inspectable.tsx lines 745-757), run on session close:
if `captureInfo.wasConnected` is truthy, restore the saved inline
position/left (defaulting to `absolute` / `-9999px`) and append the container
to `document.body`; otherwise, if the container is still inside the modal
content surface, remove it. -/
def restoreElement (sess : Session) : ContainerState :=
  if sess.info.wasConnected = some true then
    ⟨DomParent.body, jsOrS sess.origPosition "absolute", jsOrS sess.origLeft "-9999px"⟩
  else if sess.container.parent = DomParent.modalSurface then
    { sess.container with parent := DomParent.detached }
  else sess.container

def c2SourceElem : Elem := ⟨3, 40, 40, 0, 0, true⟩

def c2World : World :=
  ⟨[(5, html2canvasEntry c2SourceElem ⟨none, none, none⟩)], [],
    fun _ => 100, fun _ => 100, fun _ => false⟩

def c2Mesh : MeshT := ⟨[⟨none, some (TexData.canvasData 5)⟩], none⟩

/-- Counterexample to C2 as stated: a registry-resolved (captured) source
element that was attached to the document (`isConnected = true`) under a
parent other than the body is, on close, removed from the inspection surface
(parent becomes detached) rather than restored to its original parent with
its original inline styles - the restore branch keys on the `wasConnected`
flag, which the resolver records only on the raw-source path. -/
theorem c2_counterexample :
    c2SourceElem.isConnected = true ∧
    (handleContextMenuResolve c2World c2Mesh none).map (fun info =>
        restoreElement (attachSession info ⟨DomParent.other 7, "absolute", "12px"⟩)) =
      some ⟨DomParent.detached, "relative", "0"⟩ :=
  ⟨rfl, rfl⟩

/-- Claim C2 (amended): on close, a session whose capture info has
`wasConnected = true` (recorded only on the raw-source resolution path) has
its container's inline position/left restored to the values saved at attach
(defaulting to `absolute` / `-9999px` when the saved value is empty) and the
container re-appended to `document.body`; every other session's container,
still inside the inspection surface, is removed from it and not reinserted
anywhere. -/
theorem c2_amended_restore (info : CaptureInfo) (c : ContainerState) :
    (info.wasConnected = some true →
      restoreElement (attachSession info c) =
        ⟨DomParent.body, jsOrS c.position "absolute", jsOrS c.left "-9999px"⟩) ∧
    (info.wasConnected ≠ some true →
      restoreElement (attachSession info c) =
        ⟨DomParent.detached, "relative", "0"⟩) := by
  constructor
  · intro hwc
    simp [restoreElement, attachSession, hwc]
  · intro hwc
    simp [restoreElement, attachSession, hwc]

/-- Witness for the amended C2 at concrete inputs: a raw connected source is
re-appended to the body with its saved styles; a captured source still inside
the modal is removed. -/
theorem c2_amended_witness :
    restoreElement (attachSession
        ⟨SrcElem.domElem c2SourceElem, 40, 40, 1, true, true, some true,
          none, none, none⟩
        ⟨DomParent.body, "absolute", "-9999px"⟩) =
      ⟨DomParent.body, jsOrS "absolute" "absolute", jsOrS "-9999px" "-9999px"⟩ ∧
    restoreElement (attachSession (html2canvasEntry c2SourceElem ⟨none, none, none⟩)
        ⟨DomParent.other 2, "", ""⟩) =
      ⟨DomParent.detached, "relative", "0"⟩ :=
  ⟨(c2_amended_restore _ _).1 rfl,
   (c2_amended_restore _ _).2 (by simp [html2canvasEntry])⟩

/-! ## Live-sync texture update (C3) -/

/-- A material slot as the live-sync controller sees it: its `map` texture
(by texture-object id) and its dirty flag. -/
structure MatState where
  map : Option Nat
  needsUpdate : Bool
deriving DecidableEq, Repr

/-- The state `updateTexture` acts on: the resolved mesh's material slots and
a fresh-texture counter - `new THREE.CanvasTexture(canvas)` always allocates
a texture object distinct from every previously existing one, modelled by
handing out `nextTex` and incrementing it. -/
structure LiveWorld where
  materials : List MatState
  nextTex : Nat
deriving DecidableEq, Repr

/-- The success path of `updateTexture` (Inspectable.tsx lines 690-723): the
awaited capture succeeded, a new texture object is built from it, and the
first material slot holding a texture gets the new texture and its dirty flag
set.  (A failed capture is caught and changes nothing.) -/
def updateTexture (w : LiveWorld) : LiveWorld :=
  let texture := w.nextTex
  match w.materials.findIdx? (fun m => m.map.isSome) with
  | some i => ⟨w.materials.set i ⟨some texture, true⟩, texture + 1⟩
  | none => ⟨w.materials, texture + 1⟩

/-- The observer-install gate of the `ModalContent` effect (Inspectable.tsx
line 689): `!captureInfo.isRawSource && captureInfo.mesh &&
!captureInfo.textureSourceCanvas`.  Ghost-layer sessions are exactly those
with `textureSourceCanvas` set; `mesh` is always stamped by
`handleContextMenu` before the session opens. -/
def observerInstalled (info : CaptureInfo) : Bool :=
  !info.isRawSource && info.meshStamped && info.textureSourceCanvas.isNone

/-- One DOM mutation inside the relocated element: the observer fires and
recaptures only when it was installed. -/
def mutationStep (info : CaptureInfo) (w : LiveWorld) : LiveWorld :=
  if observerInstalled info then updateTexture w else w

/-- Claim C3: in an open non-raw, non-ghost session, a mutation whose
recapture succeeds replaces the target material slot's `map` with a fresh
texture object, reference-unequal to the prior one, and sets the material's
dirty flag; sessions whose source is raw/uncaptured or a ghost layer never
perform mutation-driven recapture. -/
theorem c3_live_sync_recapture :
    (∀ (info : CaptureInfo) (w : LiveWorld) (i : Nat) (mat : MatState) (t : Nat),
        observerInstalled info = true →
        w.materials.findIdx? (fun m => m.map.isSome) = some i →
        w.materials[i]? = some mat → mat.map = some t → t < w.nextTex →
        ∃ mat' : MatState, (mutationStep info w).materials[i]? = some mat' ∧
          mat'.map = some w.nextTex ∧ mat'.map ≠ mat.map ∧
          mat'.needsUpdate = true) ∧
    (∀ (info : CaptureInfo) (w : LiveWorld),
        info.isRawSource = true ∨ info.textureSourceCanvas.isSome →
        mutationStep info w = w) := by
  constructor
  · intro info w i mat t hobs hidx hmat hmap hlt
    have hil : i < w.materials.length := by
      by_contra hge
      rw [List.getElem?_eq_none (by omega)] at hmat
      exact Option.noConfusion hmat
    refine ⟨⟨some w.nextTex, true⟩, ?_, rfl, ?_, rfl⟩
    · simp [mutationStep, hobs, updateTexture, hidx]
      rw [List.getElem?_set_self]
      omega
    · rw [hmap]
      intro hcontra
      have := Option.some.inj hcontra
      omega
  · intro info w hraw
    rcases hraw with hraw | hraw
    · simp [mutationStep, observerInstalled, hraw]
    · obtain ⟨v, hv⟩ := Option.isSome_iff_exists.mp hraw
      simp [mutationStep, observerInstalled, hv]

def c3Info : CaptureInfo :=
  ⟨SrcElem.domElem ⟨9, 10, 10, 0, 0, true⟩, 10, 10, 2, true, false,
    none, none, none, none⟩

def c3GhostInfo : CaptureInfo :=
  ⟨SrcElem.ghostOf 4, 10, 10, 1, true, false, none, some 4, some 4, none⟩

/-- Witness for C3 at concrete inputs: a live session replaces `map` 0 with
the fresh texture 1 and dirties the slot; a ghost-layer session leaves the
world untouched. -/
theorem c3_witness :
    (∃ mat' : MatState,
      (mutationStep c3Info ⟨[⟨some 0, false⟩], 1⟩).materials[0]? = some mat' ∧
      mat'.map = some 1 ∧ mat'.map ≠ some 0 ∧ mat'.needsUpdate = true) ∧
    mutationStep c3GhostInfo ⟨[⟨some 0, false⟩], 1⟩ = ⟨[⟨some 0, false⟩], 1⟩ := by
  constructor
  · obtain ⟨mat', h1, h2, h3, h4⟩ :=
      c3_live_sync_recapture.1 c3Info ⟨[⟨some 0, false⟩], 1⟩ 0 ⟨some 0, false⟩ 0
        rfl rfl rfl rfl (by decide)
    exact ⟨mat', h1, h2, h3, h4⟩
  · exact c3_live_sync_recapture.2 c3GhostInfo _ (Or.inr rfl)
